import Mathlib

/-!
Verification of the query-enhancement pipeline of the olaama_aws_mcp
repository: the AWS relevance classifier (aws_query_detector.py), the
context enhancer (src/context_enhancer.py), the MCP client manager
(src/mcp_client_manager.py) and the enhanced Ollama client orchestrator
(src/enhanced_ollama_client.py).

Python floats are modelled by rationals (ℚ): every constant appearing in
the scoring code (0.1, 0.2, 0.3, 0.4, 0.6, 0.8, 0.05, 1.0, 2.0) and
every sum/min/max/product of few of them is exactly representable in
double precision or differs from the rational value by an amount far
smaller than the gaps the theorems below depend on.

The compiled regular expressions of AWSQueryDetector are modelled as
abstract matcher functions (String → List String): the order in which
Python iterates a set is not fixed across runs (string hash
randomisation), so the alternation order of the compiled pattern, and
with it the exact matched substring for queries where two terms overlap,
is not determined by the source. Every theorem about the classifier holds
for all matchers; concrete instances use matchers whose outputs are
justified against the source term tables in comments.
-/

namespace OlaamaAwsMcp

/-! # Python string primitives -/

/-- The characters Python str.strip and str.split treat as whitespace
(ASCII part; the queries in scope are ASCII). -/
def isPyWhitespace (c : Char) : Bool :=
  c = ' ' || c = '\t' || c = '\n' || c = '\r' || c = '\x0b' || c = '\x0c'

/-- Python str.lower (ASCII behaviour). -/
def pyLower (s : String) : String := ⟨s.data.map Char.toLower⟩

/-- Python str.upper (ASCII behaviour). -/
def pyUpper (s : String) : String := ⟨s.data.map Char.toUpper⟩

/-- Python str.strip() with no arguments. -/
def pyStrip (s : String) : String :=
  ⟨((s.data.dropWhile isPyWhitespace).reverse.dropWhile isPyWhitespace).reverse⟩

/-- Whether the character list p occurs as a contiguous infix of l
(Python substring containment). -/
def charInfix (p : List Char) : List Char → Bool
  | [] => p.isEmpty
  | c :: rest => p.isPrefixOf (c :: rest) || charInfix p rest

/-- Python `needle in hay` on strings. -/
def pyContains (hay needle : String) : Bool := charInfix needle.data hay.data

/-- Token counter for Python str.split() with no arguments: number of
maximal runs of non-whitespace characters. The Bool argument records
whether the previous character was inside a token. -/
def pySplitCountAux : List Char → Bool → Nat
  | [], _ => 0
  | c :: rest, inWord =>
    if isPyWhitespace c then pySplitCountAux rest false
    else (if inWord then 0 else 1) + pySplitCountAux rest true

/-- len(s.split()) in Python. -/
def pySplitCount (s : String) : Nat := pySplitCountAux s.data false

/-- Python s[:n]. -/
def pyTake (n : Nat) (s : String) : String := ⟨s.data.take n⟩

/-! # AWSQueryDetector (aws_query_detector.py) -/

/-- AWSDetectionResult (aws_query_detector.py lines 9-15). -/
structure AWSDetectionResult where
  is_aws_related : Bool
  confidence_score : ℚ
  detected_services : List String
  matched_keywords : List String
deriving Repr, DecidableEq

/-- The per-keyword weights of AWSQueryDetector._calculate_confidence
(lines 219-224): 0.1 for the generic term "cloud", 0.2 otherwise. -/
def keywordWeight (k : String) : ℚ := if k = "cloud" then 1/10 else 2/10

/-- The action-word table of _calculate_confidence line 235. -/
def cloudTerms : List String := ["cloud", "deploy", "provision", "configure", "setup"]

/-- AWSQueryDetector._calculate_confidence (lines 197-245). query is the
lowercased, stripped query; services and keywords are the deduplicated
lowercased regex matches. -/
def calcConfidence (query : String) (services keywords : List String) : ℚ :=
  let score : ℚ := 0
  let score :=
    if services ≠ [] then score + min ((services.length : ℚ) * (4/10)) (8/10) else score
  let score :=
    if keywords ≠ [] then score + min ((keywords.map keywordWeight).sum) (6/10) else score
  let score :=
    if pyContains query "aws" || pyContains query "amazon web services" then score + 3/10
    else score
  let score :=
    if services ≠ [] ∨ keywords.any (fun k => k = "aws" || k = "amazon web services") then
      let cloudMentions := (cloudTerms.filter (fun t => pyContains query t)).length
      if cloudMentions > 0 then score + min ((cloudMentions : ℚ) * (1/10)) (2/10) else score
    else score
  let score := if pySplitCount query < 3 then score * (8/10) else score
  min (max score 0) 1

/-- AWSQueryDetector.analyze_query (lines 159-195), with the two compiled
regexes abstracted as matcher functions. Python builds the deduplicated
match lists with list(set(...)), whose order is unspecified; List.dedup
(keeping first occurrences) is one representative, and no downstream use
in scope depends on the order. -/
def analyzeQuery (serviceMatcher keywordMatcher : String → List String)
    (query : String) : AWSDetectionResult :=
  if pyStrip query = "" then ⟨false, 0, [], []⟩
  else
    let queryLower := pyStrip (pyLower query)
    let detected := ((serviceMatcher query).map pyLower).dedup
    let matched := ((keywordMatcher query).map pyLower).dedup
    let conf := calcConfidence queryLower detected matched
    ⟨decide ((4/10 : ℚ) ≤ conf), conf, detected, matched⟩

/-- The reference confidence formula of spec section 4.1 exactly as claim
C2 states it: additive components, the action-word bonus gated on a
service match or on the platform-name bonus (the substring test) having
triggered, then the short-query penalty, then the clamp. -/
def specConfidenceC2 (query : String) (services keywords : List String) : ℚ :=
  let serviceScore : ℚ := min ((services.length : ℚ) * (4/10)) (8/10)
  let keywordScore : ℚ := min ((keywords.map keywordWeight).sum) (6/10)
  let platformNameBonus : ℚ :=
    if pyContains query "aws" || pyContains query "amazon web services" then 3/10 else 0
  let actionCount := (cloudTerms.filter (fun t => pyContains query t)).length
  let actionBonus : ℚ :=
    if services ≠ [] ∨ platformNameBonus ≠ 0 then min ((actionCount : ℚ) * (1/10)) (2/10)
    else 0
  let total := serviceScore + keywordScore + platformNameBonus + actionBonus
  let total := if pySplitCount query < 3 then total * (8/10) else total
  min (max total 0) 1

/-- The claim C2 formula with its gate amended to what the code computes:
the action-word bonus requires a service match or the literal platform
name (or its full expansion) among the word-boundary matched keywords,
not merely the substring-based platform-name bonus having triggered. -/
def specConfidenceC2Amended (query : String) (services keywords : List String) : ℚ :=
  let serviceScore : ℚ := min ((services.length : ℚ) * (4/10)) (8/10)
  let keywordScore : ℚ := min ((keywords.map keywordWeight).sum) (6/10)
  let platformNameBonus : ℚ :=
    if pyContains query "aws" || pyContains query "amazon web services" then 3/10 else 0
  let actionCount := (cloudTerms.filter (fun t => pyContains query t)).length
  let actionBonus : ℚ :=
    if services ≠ [] ∨ keywords.any (fun k => k = "aws" || k = "amazon web services") then
      min ((actionCount : ℚ) * (1/10)) (2/10)
    else 0
  let total := serviceScore + keywordScore + platformNameBonus + actionBonus
  let total := if pySplitCount query < 3 then total * (8/10) else total
  min (max total 0) 1

theorem calcConfidence_nonneg (query : String) (services keywords : List String) :
    0 ≤ calcConfidence query services keywords := by
  simp only [calcConfidence]
  exact le_min (le_max_right _ _) zero_le_one

theorem calcConfidence_le_one (query : String) (services keywords : List String) :
    calcConfidence query services keywords ≤ 1 := by
  simp only [calcConfidence]
  exact min_le_right _ _

/-- C1: for every query (and every behaviour of the compiled matchers),
the classification confidence lies in [0, 1] and is_aws_related holds
exactly when the confidence is at least 0.4. -/
theorem classifier_bounds_and_threshold
    (serviceMatcher keywordMatcher : String → List String) (query : String) :
    0 ≤ (analyzeQuery serviceMatcher keywordMatcher query).confidence_score ∧
    (analyzeQuery serviceMatcher keywordMatcher query).confidence_score ≤ 1 ∧
    ((analyzeQuery serviceMatcher keywordMatcher query).is_aws_related = true ↔
      (4/10 : ℚ) ≤ (analyzeQuery serviceMatcher keywordMatcher query).confidence_score) := by
  unfold analyzeQuery
  by_cases h : pyStrip query = ""
  · simp only [h, if_pos rfl]
    refine ⟨le_refl 0, zero_le_one, ?_⟩
    constructor
    · intro hfalse; cases hfalse
    · intro h04; norm_num at h04
  · simp only [if_neg h]
    refine ⟨calcConfidence_nonneg _ _ _, calcConfidence_le_one _ _ _, ?_⟩
    exact decide_eq_true_iff

theorem ite_add_collapse (c : Prop) [Decidable c] (x a : ℚ) (h : ¬c → a = 0) :
    (if c then x + a else x) = x + a := by
  split_ifs with hc
  · rfl
  · rw [h hc, add_zero]

theorem ite_add_shift (c : Prop) [Decidable c] (x a : ℚ) :
    (if c then x + a else x) = x + (if c then a else 0) := by
  split_ifs <;> simp

theorem calcConfidence_eq_specAmended (query : String) (services keywords : List String) :
    calcConfidence query services keywords =
      specConfidenceC2Amended query services keywords := by
  simp only [calcConfidence, specConfidenceC2Amended]
  rw [ite_add_collapse (services ≠ []) 0 _ (by
    intro h; rw [not_ne_iff] at h; subst h
    simp only [List.length_nil, Nat.cast_zero, zero_mul]
    exact min_eq_left (by norm_num))]
  rw [ite_add_collapse (keywords ≠ []) _ _ (by
    intro h; rw [not_ne_iff] at h; subst h
    simp only [List.map_nil, List.sum_nil]
    exact min_eq_left (by norm_num))]
  rw [ite_add_collapse ((cloudTerms.filter (fun t => pyContains query t)).length > 0) _ _ (by
    intro h
    rw [Nat.eq_zero_of_not_pos h]
    simp only [Nat.cast_zero, zero_mul]
    exact min_eq_left (by norm_num))]
  rw [ite_add_shift
    (services ≠ [] ∨ (keywords.any fun k => decide (k = "aws") ||
      decide (k = "amazon web services")) = true)]
  rw [ite_add_shift
    ((pyContains query "aws" || pyContains query "amazon web services") = true)]
  simp only [zero_add]

/-- C2, as the claim states it, fails on the code: in the query
"jigsaws deploy now" the platform name "aws" occurs as a substring (inside
"jigsaws"), so the flat 0.3 bonus fires, and the claim formula then also
grants the action-word bonus for "deploy" (total 0.6); the code gates the
action-word bonus on "aws"/"amazon web services" being among the
word-boundary regex matches, which they are not here, and yields 0.5.
Matcher justification against the source term tables: the service regex
matches nothing in "jigsaws deploy now"; the keyword regex matches exactly
"deploy" (the word-boundary pattern for "aws" does not match inside
"jigsaws"). -/
theorem classifier_confidence_formula_counterexample :
    (analyzeQuery (fun _ => []) (fun _ => ["deploy"])
        "jigsaws deploy now").confidence_score ≠
      specConfidenceC2 (pyStrip (pyLower "jigsaws deploy now"))
        (((([] : List String)).map pyLower).dedup)
        (((["deploy"]).map pyLower).dedup) := by
  have hq : ¬pyStrip "jigsaws deploy now" = "" := by decide
  have hql : pyStrip (pyLower "jigsaws deploy now") = "jigsaws deploy now" := by decide
  have hkw : ((["deploy"] : List String).map pyLower).dedup = ["deploy"] := by decide
  have c1 : pyContains "jigsaws deploy now" "aws" = true := by decide
  have c2 : pyContains "jigsaws deploy now" "amazon web services" = false := by decide
  have c3 : cloudTerms.filter (fun t => pyContains "jigsaws deploy now" t) = ["deploy"] := by
    decide
  have c4 : pySplitCount "jigsaws deploy now" = 3 := by decide
  have c5 : pyLower "deploy" = "deploy" := by decide
  unfold analyzeQuery
  rw [if_neg hq]
  norm_num [hql, hkw, calcConfidence, specConfidenceC2, keywordWeight, c1, c2, c3, c4, c5]
  rw [if_neg (show ¬(("deploy" : String) = "aws" ∨ ("deploy" : String) = "amazon web services")
        by decide),
    if_neg (show ¬(("deploy" : String) = "cloud") by decide)]
  norm_num

/-- C2 (amended): for every non-empty query, the classifier confidence
equals the additive reference formula of spec section 4.1 with the
action-word gate read as the code computes it: at least one service match,
or the platform name (or its full expansion) among the word-boundary
matched keywords. -/
theorem classifier_confidence_matches_amended_formula
    (serviceMatcher keywordMatcher : String → List String) (query : String)
    (h : pyStrip query ≠ "") :
    (analyzeQuery serviceMatcher keywordMatcher query).confidence_score =
      specConfidenceC2Amended (pyStrip (pyLower query))
        (((serviceMatcher query).map pyLower).dedup)
        (((keywordMatcher query).map pyLower).dedup) := by
  unfold analyzeQuery
  rw [if_neg h]
  exact calcConfidence_eq_specAmended _ _ _

/-- Witness for the amended C2 at the query "deploy an ec2 instance on aws"
(the service regex matches "ec2"; the keyword regex matches "deploy",
"instance" and "aws"). -/
theorem classifier_confidence_matches_amended_formula_witness :
    pyStrip "deploy an ec2 instance on aws" ≠ "" ∧
    (analyzeQuery (fun _ => ["ec2"]) (fun _ => ["deploy", "instance", "aws"])
        "deploy an ec2 instance on aws").confidence_score =
      specConfidenceC2Amended (pyStrip (pyLower "deploy an ec2 instance on aws"))
        ((((fun (_ : String) => ["ec2"]) "deploy an ec2 instance on aws").map pyLower).dedup)
        ((((fun (_ : String) => ["deploy", "instance", "aws"])
            "deploy an ec2 instance on aws").map pyLower).dedup) :=
  ⟨by decide,
    classifier_confidence_matches_amended_formula
      (fun _ => ["ec2"]) (fun _ => ["deploy", "instance", "aws"])
      "deploy an ec2 instance on aws" (by decide)⟩

/-! # ContextEnhancer (src/context_enhancer.py) and the MCP response
data model (src/mcp_client_manager.py lines 17-34) -/

/-- One documentation entry as the code passes it around: a Python dict
whose fields are read with .get and per-field defaults. A missing key is
none. (The code only ever stores strings and a float under these keys.) -/
structure Doc where
  title : Option String := none
  content : Option String := none
  url : Option String := none
  service : Option String := none
  relevance_score : Option ℚ := none
deriving Repr, DecidableEq

/-- MCPResponse (src/mcp_client_manager.py lines 17-24). -/
structure MCPResponse where
  success : Bool
  documentation : List Doc
  sources : List String
  query_time : ℚ
  error_message : Option String := none
deriving Repr, DecidableEq

/-- EnhancedContext (src/context_enhancer.py lines 11-19). -/
structure EnhancedContext where
  original_query : String
  enhanced_prompt : String
  documentation_summary : String
  sources : List String
  confidence_score : ℚ
  processing_time : ℚ
deriving Repr, DecidableEq

/-- ContextEnhancer.max_context_length (line 33). -/
def maxContextLength : Nat := 2000

/-- ContextEnhancer.max_docs_per_query (line 34). -/
def maxDocsPerQuery : Nat := 3

theorem dropWhile_length_le (p : Char → Bool) :
    ∀ l : List Char, (l.dropWhile p).length ≤ l.length := by
  intro l
  induction l with
  | nil => simp [List.dropWhile]
  | cons c rest ih =>
    by_cases h : p c
    · rw [List.dropWhile_cons_of_pos h]
      exact Nat.le_succ_of_le ih
    · rw [List.dropWhile_cons_of_neg h]

/-- re.sub of one or more whitespace characters by a single space
(clean_documentation_content line 141). -/
def collapseWs : List Char → List Char
  | [] => []
  | c :: rest =>
    if isPyWhitespace c then ' ' :: collapseWs (rest.dropWhile isPyWhitespace)
    else c :: collapseWs rest
termination_by l => l.length
decreasing_by
  · exact Nat.lt_succ_of_le (dropWhile_length_le _ _)
  · simp

/-- re.sub of HTML-like tags (one opening bracket, one or more
non-closing characters, one closing bracket) by nothing
(clean_documentation_content line 144), with the leftmost-then-greedy
semantics of the Python regex engine. -/
def stripTags : List Char → List Char
  | [] => []
  | c :: rest =>
    if c = '<' ∧ (rest.takeWhile (· ≠ '>')).length ≠ 0 ∧
        (rest.takeWhile (· ≠ '>')).length < rest.length then
      stripTags (rest.drop ((rest.takeWhile (· ≠ '>')).length + 1))
    else c :: stripTags rest
termination_by l => l.length
decreasing_by
  · have := List.length_drop ((rest.takeWhile (· ≠ '>')).length + 1) rest
    simp only [List.length_cons]
    omega
  · simp

/-- re.sub of http(s) URLs (scheme plus one or more non-whitespace
characters) by a placeholder token (clean_documentation_content
line 147). -/
def replaceUrls : List Char → List Char
  | [] => []
  | c :: rest =>
    if _h8 : "https://".data.isPrefixOf (c :: rest) ∧
        ((c :: rest).drop 8).takeWhile (fun ch => ¬isPyWhitespace ch) ≠ [] then
      "[URL]".data ++
        replaceUrls (((c :: rest).drop 8).drop
          (((c :: rest).drop 8).takeWhile (fun ch => ¬isPyWhitespace ch)).length)
    else if _h7 : "http://".data.isPrefixOf (c :: rest) ∧
        ((c :: rest).drop 7).takeWhile (fun ch => ¬isPyWhitespace ch) ≠ [] then
      "[URL]".data ++
        replaceUrls (((c :: rest).drop 7).drop
          (((c :: rest).drop 7).takeWhile (fun ch => ¬isPyWhitespace ch)).length)
    else c :: replaceUrls rest
termination_by l => l.length
decreasing_by
  · simp only [List.length_drop, List.length_cons]
    omega
  · simp only [List.length_drop, List.length_cons]
    omega
  · simp

/-- ContextEnhancer.clean_documentation_content (lines 127-154). -/
def cleanDocumentationContent (content : String) : String :=
  if content = "" then "No content available"
  else
    let cleaned := replaceUrls (stripTags (collapseWs (pyStrip content).data))
    let maxContentLength := maxContextLength / maxDocsPerQuery
    if cleaned.length > maxContentLength then
      ⟨cleaned.take (maxContentLength - 3)⟩ ++ "..."
    else ⟨cleaned⟩

/-- The sort key of format_documentation line 104: relevance_score with
the .get default 0.5. -/
def docRelevance (d : Doc) : ℚ := d.relevance_score.getD (1/2)

/-- The descending relevance order used by Python sorted(...,
key=relevance, reverse=True): a stable sort that puts an entry before
another exactly when its key is strictly greater, keeping arrival order
on ties. List.insertionSort with this relation has exactly these
semantics. -/
def docDescOrder (a b : Doc) : Prop := docRelevance b ≤ docRelevance a

instance : DecidableRel docDescOrder := fun a b =>
  inferInstanceAs (Decidable (docRelevance b ≤ docRelevance a))

/-- The list of entries format_documentation renders, in render order
(lines 102-106): the first max_docs_per_query entries of the response
list, stably sorted by descending relevance score. -/
def formatSortedDocs (docs : List Doc) : List Doc :=
  (docs.take maxDocsPerQuery).insertionSort docDescOrder

/-- One numbered section of format_documentation (lines 108-123). -/
def formatDocEntry (i : Nat) (d : Doc) : String :=
  pyStrip ("\n" ++ toString i ++ ". " ++ d.title.getD "AWS Documentation" ++ " (" ++
    pyUpper (d.service.getD "general") ++ ")\n" ++
    cleanDocumentationContent (d.content.getD "") ++ "\nSource: " ++ d.url.getD "" ++ "\n")

/-- The numbered sections, starting at index i (enumerate(sorted_docs, 1)). -/
def formatSections (i : Nat) : List Doc → List String
  | [] => []
  | d :: rest => formatDocEntry i d :: formatSections (i + 1) rest

/-- Python sep.join(parts). -/
def joinWith (sep : String) : List String → String
  | [] => ""
  | [s] => s
  | s :: rest => s ++ sep ++ joinWith sep rest

/-- ContextEnhancer.format_documentation (lines 86-125). -/
def formatDocumentation (mcpResponse : MCPResponse) : String :=
  if mcpResponse.documentation = [] then ""
  else joinWith "\n\n" (formatSections 1 (formatSortedDocs mcpResponse.documentation))

/-- The fixed prompt text of create_enhanced_prompt before the user
question (lines 170-172). -/
def enhancedPromptPrefix : String :=
  "Please answer the following question using both your knowledge and the official AWS documentation provided below.\n\nUser Question: "

/-- The fixed prompt text between the question and the documentation
block (lines 172-175). -/
def enhancedPromptMiddle : String := "\n\nOfficial AWS Documentation:\n"

/-- The fixed instruction text after the documentation block
(lines 175-184). -/
def enhancedPromptSuffix : String :=
  "\n\nInstructions:\n- Use the official AWS documentation as the primary source for technical details\n- Supplement with your general knowledge where appropriate\n- If the documentation doesn\x27t fully answer the question, clearly indicate what information is missing\n- Provide practical, actionable advice when possible\n- Include relevant AWS service names and concepts from the documentation\n\nAnswer:"

/-- ContextEnhancer.create_enhanced_prompt (lines 156-186). -/
def createEnhancedPrompt (originalQuery formattedDocs : String) : String :=
  if pyStrip formattedDocs = "" then originalQuery
  else enhancedPromptPrefix ++ originalQuery ++ enhancedPromptMiddle ++ formattedDocs ++
    enhancedPromptSuffix

/-- ContextEnhancer.create_documentation_summary (lines 188-217). The
Python set of upper-cased service names is modelled by dedup (insertion
order) followed by the sort that sorted() applies when the summary is
rendered; the titles list built by the loop is dead code and omitted. -/
def createDocumentationSummary (documentation : List Doc) : String :=
  if documentation = [] then "No documentation sources"
  else
    let services :=
      ((documentation.take maxDocsPerQuery).map (fun d => pyUpper (d.service.getD "general"))).dedup
    let summary := "Retrieved " ++ toString documentation.length ++ " AWS documentation entries"
    if services ≠ [] then
      summary ++ " covering " ++ joinWith ", " (services.insertionSort (· ≤ ·))
    else summary

/-- The per-entry content-quality test of calculate_confidence_score
line 245: a present, non-empty content whose stripped length exceeds 50. -/
def meaningfulContent (d : Doc) : Bool :=
  d.content.getD "" ≠ "" && (pyStrip (d.content.getD "")).length > 50

/-- ContextEnhancer.calculate_confidence_score (lines 219-260). The loop
over entries accumulates 0.1 per meaningful entry and, for those same
entries, their raw content length; the fold mirrors it. -/
def calculateConfidenceScore (mcpResponse : MCPResponse) : ℚ :=
  if !mcpResponse.success || mcpResponse.documentation = [] then 0
  else
    let score : ℚ := 0 + 3/10
    let score := score + min ((mcpResponse.documentation.length : ℚ) * (2/10)) (4/10)
    let acc := mcpResponse.documentation.foldl
      (fun (acc : ℚ × ℕ) d =>
        if meaningfulContent d then (acc.1 + 1/10, acc.2 + (d.content.getD "").length)
        else acc)
      (score, 0)
    let score := if acc.2 > 500 then acc.1 + 1/10 else acc.1
    let score :=
      if mcpResponse.query_time < 1 then score + 1/10
      else if mcpResponse.query_time < 2 then score + 1/20
      else score
    min (max score 0) 1

/-- ContextEnhancer.enhance_query (lines 36-84). The underlying
documentation call (self.mcp_manager.query_documentation) is given as
the mcpResponse argument; the wall-clock processing time as elapsed.
The function is total: every outcome of the documentation call yields a
normally-returned EnhancedContext. -/
def enhanceQuery (originalQuery : String) (mcpResponse : MCPResponse) (elapsed : ℚ) :
    EnhancedContext :=
  if !mcpResponse.success then
    { original_query := originalQuery
      enhanced_prompt := originalQuery
      documentation_summary := "No AWS documentation available"
      sources := []
      confidence_score := 0
      processing_time := elapsed }
  else
    { original_query := originalQuery
      enhanced_prompt := createEnhancedPrompt originalQuery (formatDocumentation mcpResponse)
      documentation_summary := createDocumentationSummary mcpResponse.documentation
      sources := mcpResponse.sources
      confidence_score := calculateConfidenceScore mcpResponse
      processing_time := elapsed }

/-- C3: enhance_query is total (it is a plain function of the
documentation outcome, so it returns normally for every outcome), and
whenever the documentation call reports failure the returned context
echoes the original query with confidence 0 and no sources. -/
theorem enhance_query_failure_echoes_query (originalQuery : String)
    (mcpResponse : MCPResponse) (elapsed : ℚ) (h : mcpResponse.success = false) :
    (enhanceQuery originalQuery mcpResponse elapsed).enhanced_prompt = originalQuery ∧
    (enhanceQuery originalQuery mcpResponse elapsed).confidence_score = 0 ∧
    (enhanceQuery originalQuery mcpResponse elapsed).sources = [] := by
  unfold enhanceQuery
  rw [h]
  exact ⟨rfl, rfl, rfl⟩

/-- Witness for C3 at a concrete failed documentation response. -/
theorem enhance_query_failure_echoes_query_witness :
    (MCPResponse.mk false [] [] (1/2) (some "boom")).success = false ∧
    ((enhanceQuery "how do I use s3" (MCPResponse.mk false [] [] (1/2) (some "boom"))
        (1/4)).enhanced_prompt = "how do I use s3" ∧
      (enhanceQuery "how do I use s3" (MCPResponse.mk false [] [] (1/2) (some "boom"))
        (1/4)).confidence_score = 0 ∧
      (enhanceQuery "how do I use s3" (MCPResponse.mk false [] [] (1/2) (some "boom"))
        (1/4)).sources = []) :=
  ⟨rfl, enhance_query_failure_echoes_query "how do I use s3"
    (MCPResponse.mk false [] [] (1/2) (some "boom")) (1/4) rfl⟩

/-- C8: the enhanced prompt is never shorter than the original query. -/
theorem enhanced_prompt_at_least_query_length (originalQuery : String)
    (mcpResponse : MCPResponse) (elapsed : ℚ) :
    originalQuery.length ≤
      (enhanceQuery originalQuery mcpResponse elapsed).enhanced_prompt.length := by
  unfold enhanceQuery
  cases h : mcpResponse.success with
  | false => exact le_refl _
  | true =>
    simp only [Bool.not_true, Bool.false_eq_true, if_false]
    unfold createEnhancedPrompt
    by_cases hd : pyStrip (formatDocumentation mcpResponse) = ""
    · rw [if_pos hd]
    · rw [if_neg hd]
      simp only [String.length_append]
      omega

/-- Number of entries passing the content-quality test. -/
def qualifyingCount (docs : List Doc) : Nat := (docs.filter meaningfulContent).length

/-- Total raw content length summed over the entries passing the
content-quality test (the loop of calculate_confidence_score adds each
length inside the same if). -/
def qualifyingLength (docs : List Doc) : Nat :=
  ((docs.filter meaningfulContent).map (fun d => (d.content.getD "").length)).sum

theorem confidence_fold_eq (docs : List Doc) :
    ∀ (s : ℚ) (t : Nat),
      docs.foldl
        (fun (acc : ℚ × ℕ) d =>
          if meaningfulContent d then (acc.1 + 1/10, acc.2 + (d.content.getD "").length)
          else acc)
        (s, t) =
      (s + (qualifyingCount docs : ℚ) * (1/10), t + qualifyingLength docs) := by
  induction docs with
  | nil => intro s t; simp [qualifyingCount, qualifyingLength]
  | cons d rest ih =>
    intro s t
    by_cases h : meaningfulContent d
    · simp only [List.foldl_cons, if_pos h, ih, qualifyingCount, qualifyingLength,
        List.filter_cons_of_pos h, List.length_cons, List.map_cons, List.sum_cons,
        Prod.mk.injEq]
      constructor
      · push_cast
        ring
      · omega
    · simp only [List.foldl_cons, if_neg h, ih, qualifyingCount, qualifyingLength,
        List.filter_cons_of_neg h]

theorem clamp01_congr {x y : ℚ} (h : x = y) : min (max x 0) 1 = min (max y 0) 1 := by
  rw [h]

/-- The reference enhancement-confidence formula of spec section 4.3
exactly as claim C4 states it: 0 on failure, otherwise additive
components where the substantial-content bonus looks at the total raw
content length across all entries, clamped to [0,1]. -/
def specEnhancementConfidenceC4 (mcpResponse : MCPResponse) : ℚ :=
  if !mcpResponse.success then 0
  else
    let base : ℚ := 3/10
    let quantity : ℚ := min ((mcpResponse.documentation.length : ℚ) * (2/10)) (4/10)
    let quality : ℚ :=
      ((mcpResponse.documentation.filter
          (fun d => (pyStrip (d.content.getD "")).length > 50)).length : ℚ) * (1/10)
    let substantial : ℚ :=
      if (mcpResponse.documentation.map (fun d => (d.content.getD "").length)).sum > 500
      then 1/10 else 0
    let latency : ℚ :=
      if mcpResponse.query_time < 1 then 1/10
      else if mcpResponse.query_time < 2 then 1/20 else 0
    min (max (base + quantity + quality + substantial + latency) 0) 1

/-- The claim C4 formula amended to what the code computes: 0 also when
the entries list is empty, and the substantial-content bonus sums raw
lengths only over the entries that already passed the 50-meaningful-
character test. -/
def specEnhancementConfidenceAmended (mcpResponse : MCPResponse) : ℚ :=
  if !mcpResponse.success || mcpResponse.documentation = [] then 0
  else
    let base : ℚ := 3/10
    let quantity : ℚ := min ((mcpResponse.documentation.length : ℚ) * (2/10)) (4/10)
    let quality : ℚ := (qualifyingCount mcpResponse.documentation : ℚ) * (1/10)
    let substantial : ℚ :=
      if qualifyingLength mcpResponse.documentation > 500 then 1/10 else 0
    let latency : ℚ :=
      if mcpResponse.query_time < 1 then 1/10
      else if mcpResponse.query_time < 2 then 1/20 else 0
    min (max (base + quantity + quality + substantial + latency) 0) 1

/-- C4, as the claim states it, fails on the code: a successful response
with an empty entries list and a sub-second round trip receives 0.0 from
the code (which zeroes empty documentation) but 0.3 + 0.1 = 0.4 from the
claim formula. -/
theorem enhancement_confidence_formula_counterexample :
    calculateConfidenceScore (MCPResponse.mk true [] [] (1/2) none) ≠
      specEnhancementConfidenceC4 (MCPResponse.mk true [] [] (1/2) none) := by
  norm_num [calculateConfidenceScore, specEnhancementConfidenceC4]

/-- C4 (amended): the enhancement confidence equals the additive
reference formula of spec section 4.3 with two corrections: the score is
0 on failure or when no entries were returned, and the substantial-
content bonus considers the total raw length of the qualifying entries
only. -/
theorem enhancement_confidence_matches_amended_formula (mcpResponse : MCPResponse) :
    calculateConfidenceScore mcpResponse =
      specEnhancementConfidenceAmended mcpResponse := by
  unfold calculateConfidenceScore specEnhancementConfidenceAmended
  by_cases hg : (!mcpResponse.success || mcpResponse.documentation = []) = true
  · rw [if_pos hg, if_pos hg]
  · rw [if_neg hg, if_neg hg]
    simp only [confidence_fold_eq, Nat.zero_add, zero_add]
    split_ifs <;> exact clamp01_congr (by ring)

instance : IsTotal Doc docDescOrder :=
  ⟨fun a b => le_total (docRelevance b) (docRelevance a)⟩

instance : IsTrans Doc docDescOrder :=
  ⟨fun _ _ _ hab hbc => le_trans hbc hab⟩

/-- The selection claim C5 describes: the top max_docs_per_query entries
of the whole returned list by relevance score (stable descending sort of
the full list, then the prefix). -/
def specSelectedDocsC5 (docs : List Doc) : List Doc :=
  (docs.insertionSort docDescOrder).take maxDocsPerQuery

/-- A documentation entry carrying only a relevance score, as used by the
C5 counterexample. -/
def scoreOnlyDoc (q : ℚ) : Doc := { relevance_score := some q }

/-- C5, as the claim states it, fails on the code: format_documentation
slices the first three entries of the arrival list and only then sorts,
so with arrival scores [0.1, 0.2, 0.3, 0.9] it renders the 0.3, 0.2 and
0.1 entries while the claim asks for the 0.9, 0.3 and 0.2 entries. -/
theorem format_documentation_selection_counterexample :
    formatSortedDocs
        [scoreOnlyDoc (1/10), scoreOnlyDoc (2/10), scoreOnlyDoc (3/10), scoreOnlyDoc (9/10)] ≠
      specSelectedDocsC5
        [scoreOnlyDoc (1/10), scoreOnlyDoc (2/10), scoreOnlyDoc (3/10), scoreOnlyDoc (9/10)] := by
  norm_num [formatSortedDocs, specSelectedDocsC5, scoreOnlyDoc, docDescOrder, docRelevance,
    maxDocsPerQuery, List.insertionSort, List.orderedInsert, List.take]

theorem sorted_of_constant_relevance {docs : List Doc} {q : ℚ}
    (h : ∀ d ∈ docs, docRelevance d = q) : docs.Sorted docDescOrder := by
  induction docs with
  | nil => exact List.sorted_nil
  | cons d rest ih =>
    refine List.Pairwise.cons ?_ (ih (fun e he => h e (List.mem_cons_of_mem d he)))
    intro e he
    unfold docDescOrder
    rw [h d (List.mem_cons_self d rest), h e (List.mem_cons_of_mem d he)]

/-- Stability on ties, in the form the claims need: sorting a list whose
relevance keys are all equal changes nothing. -/
theorem formatSortedDocs_of_constant {docs : List Doc} {q : ℚ}
    (h : ∀ d ∈ docs, docRelevance d = q) :
    formatSortedDocs docs = docs.take maxDocsPerQuery :=
  List.Sorted.insertionSort_eq
    (sorted_of_constant_relevance (fun d hd => h d (List.mem_of_mem_take hd)))

/-- C5 (amended): the entries rendered into the formatted documentation
block are the first (at most) max_docs_per_query entries of the returned
list in arrival order, reordered into descending relevance-score order by
a stable sort; in particular they are a permutation of that prefix,
sorted descending, and when all scores are equal the arrival order is
kept unchanged. -/
theorem format_documentation_renders_sorted_prefix (docs : List Doc) :
    (formatSortedDocs docs).Perm (docs.take maxDocsPerQuery) ∧
    (formatSortedDocs docs).Sorted docDescOrder ∧
    (∀ q : ℚ, (∀ d ∈ docs, docRelevance d = q) →
      formatSortedDocs docs = docs.take maxDocsPerQuery) := by
  refine ⟨List.perm_insertionSort docDescOrder _, List.sorted_insertionSort docDescOrder _, ?_⟩
  intro q h
  exact formatSortedDocs_of_constant (fun d hd => h d hd)

/-! # MCPClientManager (src/mcp_client_manager.py) -/

/-- JSON values as exchanged with the MCP subprocess. Numbers carry a
rational payload; their Python float repr (needed only for the length of
json.dumps in one branch of _parse_tool_result) is not modelled, so that
length is passed in as an abstract function. -/
inductive Json where
  | null
  | bool (b : Bool)
  | num (n : ℚ)
  | str (s : String)
  | arr (items : List Json)
  | obj (fields : List (String × Json))

/-- Whether a JSON value is exactly the given string (the Python
comparison field == "text"; a non-string field compares unequal). -/
def Json.isStr : Json → String → Bool
  | .str t, s => t = s
  | _, _ => false

/-- dict.get(key): the first binding of the key, none when absent. -/
def Json.getField : Json → String → Option Json
  | .obj fields, key => fields.lookup key
  | _, _ => none

/-- The per-service keyword table of _extract_service_from_content
(lines 554-565), in the insertion order of the Python dict. -/
def serviceKeywordTable : List (String × List String) :=
  [("s3", ["s3", "simple storage", "bucket"]),
   ("ec2", ["ec2", "elastic compute", "instance"]),
   ("lambda", ["lambda", "serverless", "function"]),
   ("rds", ["rds", "relational database", "mysql", "postgres"]),
   ("iam", ["iam", "identity", "access management", "role", "policy"]),
   ("cloudformation", ["cloudformation", "template", "stack"]),
   ("vpc", ["vpc", "virtual private cloud", "subnet"]),
   ("cloudwatch", ["cloudwatch", "monitoring", "logs", "metrics"]),
   ("api gateway", ["api gateway", "rest api", "http api"]),
   ("dynamodb", ["dynamodb", "nosql", "table"])]

/-- MCPClientManager._extract_service_from_content (lines 541-571). -/
def extractServiceFromContent (content : String) : String :=
  match serviceKeywordTable.find?
      (fun p => p.2.any (fun kw => pyContains (pyLower content) kw)) with
  | some p => p.1
  | none => "general"

/-- The documentation-entry dict built for parsed content
(_parse_tool_result lines 445-451 and analogous branches). -/
def mkParsedEntry (query textContent url : String) (score : ℚ) : Doc :=
  { title := some ("AWS Documentation: " ++ pyTake 50 query)
    content := some textContent
    url := some url
    service := some (extractServiceFromContent textContent)
    relevance_score := some score }

/-- The default documentation URL used by the parsed entries. -/
def awsDocsUrl : String := "https://docs.aws.amazon.com/"

/-- item.get("url", the default docs URL) for a content item. A url field
holding a non-string is outside the shapes the code ever stores and is
mapped to the default. -/
def itemUrl (item : Json) : String :=
  match item.getField "url" with
  | some (.str u) => u
  | _ => awsDocsUrl

/-- One iteration of the content-array loop of _parse_tool_result
(lines 438-487): some entry, none when the item matches no known shape,
or an error when the item carries a non-string text/content payload
(Python then raises inside _extract_service_from_content, reaching the
except handler). -/
def parseContentItem (query : String) (item : Json) : Except String (Option Doc) :=
  match item with
  | .obj fields =>
    if (((Json.obj fields).getField "type").getD .null).isStr "text" &&
        ((Json.obj fields).getField "text").isSome then
      match (Json.obj fields).getField "text" with
      | some (.str t) => .ok (some (mkParsedEntry query t awsDocsUrl (9/10)))
      | _ => .error "AttributeError: lower"
    else if ((Json.obj fields).getField "text").isSome then
      match (Json.obj fields).getField "text" with
      | some (.str t) => .ok (some (mkParsedEntry query t (itemUrl (Json.obj fields)) (9/10)))
      | _ => .error "AttributeError: lower"
    else if ((Json.obj fields).getField "content").isSome then
      match (Json.obj fields).getField "content" with
      | some (.str t) => .ok (some (mkParsedEntry query t (itemUrl (Json.obj fields)) (9/10)))
      | _ => .error "AttributeError: lower"
    else .ok none
  | .str s => .ok (some (mkParsedEntry query s awsDocsUrl (9/10)))
  | _ => .ok none

/-- The content-array loop itself: entries accumulate in arrival order;
an error in any item aborts the whole loop (reaching the except handler). -/
def parseContentItems (query : String) : List Json → Except String (List Doc)
  | [] => .ok []
  | item :: rest =>
    match parseContentItem query item with
    | .error e => .error e
    | .ok none => parseContentItems query rest
    | .ok (some d) =>
      match parseContentItems query rest with
      | .error e => .error e
      | .ok restDocs => .ok (d :: restDocs)

/-- The synthetic low-relevance entry of the no-recognisable-shape branch
(lines 512-523). -/
def syntheticEntry (query : String) : Doc :=
  { title := some ("AWS Documentation: " ++ pyTake 50 query)
    content := some ("Retrieved AWS documentation for: " ++ query)
    url := some awsDocsUrl
    service := some (extractServiceFromContent query)
    relevance_score := some (1/2) }

/-- The synthetic entry of the except handler (lines 527-537). -/
def parseErrorEntry (query : String) : Doc :=
  { title := some ("AWS Documentation: " ++ pyTake 50 query)
    content := some ("Documentation retrieved for: " ++ query ++ " (parsing error occurred)")
    url := some awsDocsUrl
    service := some (extractServiceFromContent query)
    relevance_score := some (3/10) }

/-- The try-block of MCPClientManager._parse_tool_result (lines 431-525).
dumpsLen gives len(json.dumps(result)); it is abstract because the claims
hold for every value of it. -/
def parseToolResultCore (query : String) (dumpsLen : Json → Nat) (result : Json) :
    Except String (List Doc) :=
  let content := (result.getField "content").getD (.arr [])
  match content with
  | .arr (item :: rest) => parseContentItems query (item :: rest)
  | .str s => .ok [mkParsedEntry query s awsDocsUrl (9/10)]
  | _ =>
    match result.getField "text" with
    | some (.str t) => .ok [mkParsedEntry query t awsDocsUrl (9/10)]
    | some _ => .error "AttributeError: lower"
    | none =>
      if dumpsLen result > 50 then .ok [syntheticEntry query]
      else .ok []

/-- MCPClientManager._parse_tool_result (lines 418-539): the try-block
with its except handler, which degrades any parsing error to a single
low-relevance entry. -/
def parseToolResult (query : String) (dumpsLen : Json → Nat) (result : Json) : List Doc :=
  match parseToolResultCore query dumpsLen result with
  | .ok docs => docs
  | .error _ => [parseErrorEntry query]

theorem parseContentItem_score (query : String) (item : Json) (d : Doc)
    (h : parseContentItem query item = .ok (some d)) :
    d.relevance_score = some (9/10) := by
  cases item with
  | obj fields =>
    simp only [parseContentItem] at h
    split_ifs at h
    · split at h
      · cases h; rfl
      · exact Except.noConfusion h
    · split at h
      · cases h; rfl
      · exact Except.noConfusion h
    · split at h
      · cases h; rfl
      · exact Except.noConfusion h
    · simp at h
  | str s =>
    simp only [parseContentItem] at h
    cases h; rfl
  | null => simp [parseContentItem] at h
  | bool b => simp [parseContentItem] at h
  | num n => simp [parseContentItem] at h
  | arr l => simp [parseContentItem] at h

theorem parseContentItems_scores (query : String) :
    ∀ (items : List Json) (docs : List Doc),
      parseContentItems query items = .ok docs →
      ∀ d ∈ docs, d.relevance_score = some (9/10) := by
  intro items
  induction items with
  | nil =>
    intro docs h d hd
    simp only [parseContentItems] at h
    cases h
    cases hd
  | cons item rest ih =>
    intro docs h d hd
    simp only [parseContentItems] at h
    cases hpi : parseContentItem query item with
    | error e => rw [hpi] at h; exact Except.noConfusion h
    | ok entry =>
      rw [hpi] at h
      cases entry with
      | none => exact ih docs h d hd
      | some e =>
        cases hrest : parseContentItems query rest with
        | error e2 => rw [hrest] at h; exact Except.noConfusion h
        | ok restDocs =>
          rw [hrest] at h
          cases h
          cases hd with
          | head => exact parseContentItem_score query item _ hpi
          | tail _ hmem => exact ih restDocs hrest _ hmem

theorem parseToolResultCore_scores (query : String) (dumpsLen : Json → Nat)
    (result : Json) (docs : List Doc)
    (h : parseToolResultCore query dumpsLen result = .ok docs) :
    (∀ d ∈ docs, d.relevance_score = some (9/10)) ∨ docs = [syntheticEntry query] := by
  simp only [parseToolResultCore] at h
  split at h
  · exact Or.inl (parseContentItems_scores query _ docs h)
  · left
    cases h
    intro d hd
    cases hd with
    | head => rfl
    | tail _ hmem => cases hmem
  · split at h
    · left
      cases h
      intro d hd
      cases hd with
      | head => rfl
      | tail _ hmem => cases hmem
    · exact Except.noConfusion h
    · split_ifs at h
      · right
        cases h
        rfl
      · left
        cases h
        intro d hd
        cases hd

/-- C9: every entry parsed from a tool result carries relevance score
0.9 except the synthetic fallback entry (0.5, no recognisable shape) and
the parse-error entry (0.3), each only ever produced as the sole entry;
consequently the enhancer stable sort leaves every parsed list in the
arrival order of the tool result (the code never renders more than
max_docs_per_query entries, so the identity holds for the sliced prefix
it actually renders). -/
theorem parse_tool_result_scores_and_order (query : String) (dumpsLen : Json → Nat)
    (result : Json) :
    ((∀ d ∈ parseToolResult query dumpsLen result, d.relevance_score = some (9/10)) ∨
      (∃ d, parseToolResult query dumpsLen result = [d] ∧
        (d.relevance_score = some (1/2) ∨ d.relevance_score = some (3/10)))) ∧
    formatSortedDocs (parseToolResult query dumpsLen result) =
      (parseToolResult query dumpsLen result).take maxDocsPerQuery := by
  unfold parseToolResult
  cases hc : parseToolResultCore query dumpsLen result with
  | error e =>
    constructor
    · right
      exact ⟨parseErrorEntry query, rfl, Or.inr rfl⟩
    · apply formatSortedDocs_of_constant (q := 3/10)
      intro d hd
      cases hd with
      | head => rfl
      | tail _ hm => cases hm
  | ok docs =>
    rcases parseToolResultCore_scores query dumpsLen result docs hc with hall | hsyn
    · constructor
      · left
        exact hall
      · apply formatSortedDocs_of_constant (q := 9/10)
        intro d hd
        simp [docRelevance, hall d hd]
    · subst hsyn
      constructor
      · right
        exact ⟨syntheticEntry query, rfl, Or.inl rfl⟩
      · apply formatSortedDocs_of_constant (q := 1/2)
        intro d hd
        cases hd with
        | head => rfl
        | tail _ hm => cases hm

/-- One tool descriptor from tools/list: name, description and the
relevant parts of inputSchema (property names in schema order, required
field names). -/
structure MCPTool where
  name : String
  description : String
  properties : List String
  required : List String
deriving Repr, DecidableEq

/-- One argument value passed to tools/call: the query/url strings or
the services list. -/
inductive ArgVal where
  | str (s : String)
  | strList (l : List String)
deriving Repr, DecidableEq

/-- The arguments dict, in insertion order. -/
def Args := List (String × ArgVal)

/-- Tool selection of query_documentation (lines 295-320): first a tool
whose lowercased name contains search/query/find; else one whose
lowercased name or description contains doc/documentation/aws; else the
first tool; none when the list is empty. -/
def selectTool (tools : List MCPTool) : Option MCPTool :=
  match tools.find? (fun t =>
      ["search", "query", "find"].any (fun kw => pyContains (pyLower t.name) kw)) with
  | some t => some t
  | none =>
    match tools.find? (fun t =>
        ["doc", "documentation", "aws"].any (fun kw =>
          pyContains (pyLower t.name) kw || pyContains (pyLower t.description) kw)) with
    | some t => some t
    | none => tools.head?

/-- The per-service documentation URLs of _get_aws_docs_urls
(lines 587-630). -/
def serviceDocUrls (service : String) : List String :=
  if pyLower service = "s3" then
    ["https://docs.aws.amazon.com/s3/",
     "https://docs.aws.amazon.com/AmazonS3/latest/userguide/",
     "https://docs.aws.amazon.com/AmazonS3/latest/dev/"]
  else if pyLower service = "lambda" then
    ["https://docs.aws.amazon.com/lambda/",
     "https://docs.aws.amazon.com/lambda/latest/dg/"]
  else if pyLower service = "ec2" then
    ["https://docs.aws.amazon.com/ec2/",
     "https://docs.aws.amazon.com/AWSEC2/latest/UserGuide/"]
  else if pyLower service = "iam" then
    ["https://docs.aws.amazon.com/iam/",
     "https://docs.aws.amazon.com/IAM/latest/UserGuide/"]
  else if pyLower service = "rds" then
    ["https://docs.aws.amazon.com/rds/",
     "https://docs.aws.amazon.com/AmazonRDS/latest/UserGuide/"]
  else if pyLower service = "cloudformation" then
    ["https://docs.aws.amazon.com/cloudformation/",
     "https://docs.aws.amazon.com/AWSCloudFormation/latest/UserGuide/"]
  else if pyLower service = "dynamodb" then
    ["https://docs.aws.amazon.com/dynamodb/",
     "https://docs.aws.amazon.com/amazondynamodb/latest/developerguide/"]
  else if pyLower service = "ssm" then
    ["https://docs.aws.amazon.com/systems-manager/",
     "https://docs.aws.amazon.com/systems-manager/latest/userguide/"]
  else []

/-- MCPClientManager._get_aws_docs_urls (lines 573-657): service URLs,
query-keyed URLs, generic fallbacks, deduplicated keeping first
occurrences. -/
def getAwsDocsUrls (query : String) (services : List String) : List String :=
  let urls := services.flatMap serviceDocUrls
  let urls := urls ++
    (if pyContains (pyLower query) "parameter store" || pyContains (pyLower query) "ssm" then
      ["https://docs.aws.amazon.com/systems-manager/latest/userguide/systems-manager-parameter-store.html",
       "https://docs.aws.amazon.com/systems-manager/latest/userguide/"]
    else if pyContains (pyLower query) "best practices" then
      ["https://docs.aws.amazon.com/wellarchitected/"]
    else [])
  let urls := urls ++
    ["https://docs.aws.amazon.com/",
     "https://aws.amazon.com/documentation/",
     "https://docs.aws.amazon.com/general/latest/gr/"]
  urls.dedup

/-- The arguments built for one candidate URL (lines 341-343): the url,
plus the query when the schema has a query property. -/
def urlArgs (properties : List String) (query url : String) : Args :=
  if properties.contains "query" then [("url", .str url), ("query", .str query)]
  else [("url", .str url)]

/-- The URL-candidate loop of query_documentation (lines 339-361), with
its for-else: each candidate is tried until one call succeeds (returning
the arguments in effect and the result); when all fail, the per-candidate
errors are discarded and a fixed all-candidates-exhausted message is
raised. -/
def tryUrls (call : Args → Except String Json) (query : String) (properties : List String) :
    List String → Except String (Args × Json)
  | [] => .error ("All AWS documentation URLs failed for query: " ++ query)
  | url :: rest =>
    match call (urlArgs properties query url) with
    | .ok result => .ok (urlArgs properties query url, result)
    | .error _ => tryUrls call query properties rest

/-- The argument construction of the non-URL branches (lines 362-376). -/
def freeTextArgs (tool : MCPTool) (query : String) (services : List String) : Args :=
  if tool.properties.contains "query" || tool.properties.contains "search" then
    if services ≠ [] ∧ tool.properties.contains "services" then
      [("query", .str query), ("services", .strList services)]
    else [("query", .str query)]
  else
    match tool.properties.find? (fun p => ["query", "search", "term", "text"].contains (pyLower p)) with
    | some p => [(p, .str query)]
    | none =>
      match tool.required.head? with
      | some rf => [(rf, .str query)]
      | none => []

/-- MCPClientManager.query_documentation (lines 257-416). The
subprocess-dependent outcomes are supplied as arguments: isConnected and
serverStarts stand for is_connected() and start_server_if_needed();
toolsListResult for the tools/list request (an error is a raised
exception); call for a tools/call request with the given name and
arguments; dumpsLen as in parseToolResult; elapsedFail and elapsedSucc
for the wall-clock query times recorded on the two return paths. After a
successful URL-loop invocation the code issues one more tools/call with
the arguments left in scope (lines 378-385); with a deterministic call
oracle this repeats the successful invocation. -/
def queryDocumentation (query : String) (services : List String)
    (isConnected serverStarts : Bool)
    (toolsListResult : Except String (List MCPTool))
    (call : String → Args → Except String Json)
    (dumpsLen : Json → Nat) (elapsedFail elapsedSucc : ℚ) : MCPResponse :=
  if !isConnected && !serverStarts then
    { success := false, documentation := [], sources := []
      query_time := elapsedFail
      error_message := some "MCP server is not running and could not be started" }
  else
    let body : Except String (List Doc) :=
      match toolsListResult with
      | .error e => .error e
      | .ok tools =>
        match selectTool tools with
        | none => .error "No tools available from MCP server"
        | some tool =>
          if tool.required.contains "url" then
            match tryUrls (call tool.name) query tool.properties
                (getAwsDocsUrls query services) with
            | .error e => .error e
            | .ok (args, _) =>
              match call tool.name args with
              | .error e => .error e
              | .ok result => .ok (parseToolResult query dumpsLen result)
          else
            match call tool.name (freeTextArgs tool query services) with
            | .error e => .error e
            | .ok result => .ok (parseToolResult query dumpsLen result)
    match body with
    | .ok docs =>
      { success := true, documentation := docs
        sources := docs.filterMap (fun d =>
          match d.url with
          | some u => if u ≠ "" then some u else none
          | none => none)
        query_time := elapsedSucc, error_message := none }
    | .error e =>
      { success := false, documentation := [], sources := []
        query_time := elapsedFail
        error_message := some ("MCP query failed: " ++ e) }

/-- Whether an Except value is a success. -/
def exceptOk {ε α : Type} : Except ε α → Bool
  | .ok _ => true
  | .error _ => false

theorem tryUrls_all_fail (call : Args → Except String Json) (query : String)
    (properties : List String) :
    ∀ urls : List String,
      (∀ url ∈ urls, exceptOk (call (urlArgs properties query url)) = false) →
      tryUrls call query properties urls =
        .error ("All AWS documentation URLs failed for query: " ++ query) := by
  intro urls
  induction urls with
  | nil => intro _; rfl
  | cons url rest ih =>
    intro h
    simp only [tryUrls]
    cases hc : call (urlArgs properties query url) with
    | ok r =>
      have := h url (List.mem_cons_self url rest)
      rw [hc] at this
      exact Bool.noConfusion this
    | error e => exact ih (fun u hu => h u (List.mem_cons_of_mem _ hu))

/-- The concrete always-failing tools/call oracle of the C7
counterexample: each invocation fails with a message naming the URL it
was given, so every candidate produces a distinct error. -/
def cexCall : String → Args → Except String Json := fun _ args =>
  .error (match args with
    | ("url", .str u) :: _ => "invalid url: " ++ u
    | _ => "bad args")

/-- C7, as the claim states it, fails on the code: with one URL-requiring
tool and every candidate URL failing (each with a distinct error naming
its URL), the returned failure carries the fixed all-candidates-exhausted
message, not the last candidate error (the last candidate here is the
generic reference URL, whose error "invalid url: https-general" is absent
from the message). -/
theorem query_documentation_last_error_counterexample :
    (queryDocumentation "q" [] true false
        (.ok [MCPTool.mk "search_docs" "" ["url"] ["url"]])
        cexCall (fun _ => 0) 0 0).error_message =
      some "MCP query failed: All AWS documentation URLs failed for query: q" ∧
    pyContains
      ((queryDocumentation "q" [] true false
          (.ok [MCPTool.mk "search_docs" "" ["url"] ["url"]])
          cexCall (fun _ => 0) 0 0).error_message.getD "")
      "invalid url: https://docs.aws.amazon.com/general/latest/gr/" = false := by
  constructor
  · decide
  · decide

/-- C7 (amended): when the selected tool requires a URL argument and
every candidate documentation URL fails, query_documentation returns a
failed response whose error message is the fixed all-candidates-exhausted
text naming the query (wrapped by the outer handler); the per-candidate
errors are discarded, not propagated. -/
theorem query_documentation_url_exhaustion (query : String) (services : List String)
    (isConnected serverStarts : Bool) (tools : List MCPTool) (tool : MCPTool)
    (call : String → Args → Except String Json) (dumpsLen : Json → Nat)
    (elapsedFail elapsedSucc : ℚ)
    (hconn : (!isConnected && !serverStarts) = false)
    (hsel : selectTool tools = some tool)
    (hurl : tool.required.contains "url" = true)
    (hfail : ∀ url ∈ getAwsDocsUrls query services,
      exceptOk (call tool.name (urlArgs tool.properties query url)) = false) :
    queryDocumentation query services isConnected serverStarts (.ok tools) call
        dumpsLen elapsedFail elapsedSucc =
      { success := false, documentation := [], sources := []
        query_time := elapsedFail
        error_message :=
          some ("MCP query failed: All AWS documentation URLs failed for query: " ++ query) } := by
  unfold queryDocumentation
  rw [hconn]
  rw [if_neg (by simp)]
  simp only [hsel, if_pos hurl, tryUrls_all_fail (call tool.name) query tool.properties
    (getAwsDocsUrls query services) hfail]
  rw [show "MCP query failed: " ++ ("All AWS documentation URLs failed for query: " ++ query) =
      "MCP query failed: All AWS documentation URLs failed for query: " ++ query from by
    rw [← String.append_assoc]
    rfl]

/-- Witness for the amended C7 at a concrete URL-requiring tool whose
every candidate invocation fails. -/
theorem query_documentation_url_exhaustion_witness :
    ((!true && !false) = false) ∧
    (selectTool [MCPTool.mk "search_docs" "" ["url"] ["url"]] =
      some (MCPTool.mk "search_docs" "" ["url"] ["url"])) ∧
    ((MCPTool.mk "search_docs" "" ["url"] ["url"]).required.contains "url" = true) ∧
    (∀ url ∈ getAwsDocsUrls "q" [],
      exceptOk (cexCall (MCPTool.mk "search_docs" "" ["url"] ["url"]).name
        (urlArgs (MCPTool.mk "search_docs" "" ["url"] ["url"]).properties "q" url)) = false) ∧
    queryDocumentation "q" [] true false
        (.ok [MCPTool.mk "search_docs" "" ["url"] ["url"]]) cexCall (fun _ => 0) 0 0 =
      { success := false, documentation := [], sources := []
        query_time := 0
        error_message :=
          some ("MCP query failed: All AWS documentation URLs failed for query: " ++ "q") } :=
  ⟨by decide, by decide, by decide, by decide,
    query_documentation_url_exhaustion "q" [] true false
      [MCPTool.mk "search_docs" "" ["url"] ["url"]]
      (MCPTool.mk "search_docs" "" ["url"] ["url"]) cexCall (fun _ => 0) 0 0
      (by decide) (by decide) (by decide) (by decide)⟩

/-! # EnhancedOllamaClient (src/enhanced_ollama_client.py) -/

/-- The session statistics dict (lines 54-60). -/
structure SessionStats where
  total_queries : Nat := 0
  aws_queries_detected : Nat := 0
  mcp_queries_successful : Nat := 0
  mcp_queries_failed : Nat := 0
  fallback_queries : Nat := 0
deriving Repr, DecidableEq

/-- The orchestrator state: the MCP switches of __init__ (lines 45-51)
and the statistics. has_mcp_manager records whether mcp_manager and
context_enhancer were constructed (they are None when the client was
built with mcp_enabled=False, and configure_mcp never creates them). -/
structure ClientState where
  mcp_enabled : Bool
  aws_detection_threshold : ℚ
  has_mcp_manager : Bool
  stats : SessionStats
deriving Repr, DecidableEq

/-- EnhancedOllamaClient.__init__ (lines 29-74): components exist exactly
when mcp_enabled was set at construction. -/
def initClientState (mcpEnabled : Bool) (threshold : ℚ) : ClientState :=
  { mcp_enabled := mcpEnabled
    aws_detection_threshold := threshold
    has_mcp_manager := mcpEnabled
    stats := {} }

/-- EnhancedOllamaClient.configure_mcp (lines 365-379). -/
def configureMcp (enabled : Option Bool) (threshold : Option ℚ) (st : ClientState) :
    ClientState :=
  let st := match enabled with
    | some e => { st with mcp_enabled := e }
    | none => st
  match threshold with
  | some t => { st with aws_detection_threshold := t }
  | none => st

/-- EnhancedResponse (lines 15-23). -/
structure EnhancedResponse where
  llm_response : String
  mcp_used : Bool
  aws_detection : AWSDetectionResult
  enhanced_context : Option EnhancedContext
  processing_time : ℚ
  fallback_reason : Option String := none
deriving Repr, DecidableEq

/-- The externally-determined outcomes of one send_message_with_mcp
call: the detector regexes, the MCP manager connectivity answers, the
documentation response the enhancer would receive, and the LLM transport
(super().send_message; an error is a raised exception, which the code
catches inside the enhancement try-block and propagates elsewhere). -/
structure OrchestratorEnv where
  serviceMatcher : String → List String
  keywordMatcher : String → List String
  is_connected : Bool
  server_starts : Bool
  doc_response : MCPResponse
  enhance_elapsed : ℚ
  llm : String → Except String String
  elapsed : ℚ

/-- The classification computed at the top of send_message_with_mcp. -/
def detectionOf (env : OrchestratorEnv) (message : String) : AWSDetectionResult :=
  analyzeQuery env.serviceMatcher env.keywordMatcher message

/-- EnhancedOllamaClient.should_use_mcp (lines 104-124). -/
def shouldUseMcp (st : ClientState) (detection : AWSDetectionResult) : Bool :=
  st.mcp_enabled && detection.is_aws_related &&
    !(detection.confidence_score < st.aws_detection_threshold)

/-- EnhancedOllamaClient._send_fallback_response (lines 211-239): the
fallback counter is bumped before the LLM call, whose failure propagates. -/
def sendFallbackResponse (st : ClientState) (env : OrchestratorEnv) (message : String)
    (detection : AWSDetectionResult) (reason : String) :
    ClientState × Except String EnhancedResponse :=
  let st := { st with stats :=
    { st.stats with fallback_queries := st.stats.fallback_queries + 1 } }
  match env.llm message with
  | .error e => (st, .error e)
  | .ok reply =>
    (st, .ok { llm_response := reply
               mcp_used := false
               aws_detection := detection
               enhanced_context := none
               processing_time := env.elapsed
               fallback_reason := some reason })

/-- The try-block of _send_with_mcp_enhancement (lines 141-178). An
error value is an exception escaping the block: the access on a missing
(None) manager, or an LLM failure (also inside the two fallback returns,
which sit inside the try). -/
def mcpTryBlock (st : ClientState) (env : OrchestratorEnv) (message : String)
    (detection : AWSDetectionResult) : ClientState × Except String EnhancedResponse :=
  if !st.has_mcp_manager then
    (st, .error "AttributeError: NoneType object has no attribute is_connected")
  else if !env.is_connected && !env.server_starts then
    sendFallbackResponse st env message detection "MCP server failed to start"
  else
    let enhancedContext := enhanceQuery message env.doc_response env.enhance_elapsed
    if enhancedContext.confidence_score < 3/10 then
      sendFallbackResponse st env message detection "Low documentation confidence"
    else
      match env.llm enhancedContext.enhanced_prompt with
      | .error e => (st, .error e)
      | .ok reply =>
        ({ st with stats := { st.stats with
            mcp_queries_successful := st.stats.mcp_queries_successful + 1 } },
         .ok { llm_response := reply
               mcp_used := true
               aws_detection := detection
               enhanced_context := some enhancedContext
               processing_time := env.elapsed
               fallback_reason := none })

/-- EnhancedOllamaClient._send_with_mcp_enhancement (lines 126-183): the
detected counter is bumped on entry; any exception in the try-block
bumps the failed counter and is converted into a fallback response. -/
def sendWithMcpEnhancement (st : ClientState) (env : OrchestratorEnv) (message : String)
    (detection : AWSDetectionResult) : ClientState × Except String EnhancedResponse :=
  let st := { st with stats :=
    { st.stats with aws_queries_detected := st.stats.aws_queries_detected + 1 } }
  match mcpTryBlock st env message detection with
  | (st2, .error e) =>
    sendFallbackResponse
      ({ st2 with stats :=
        { st2.stats with mcp_queries_failed := st2.stats.mcp_queries_failed + 1 } })
      env message detection e
  | (st2, .ok r) => (st2, .ok r)

/-- EnhancedOllamaClient._send_regular_message_enhanced (lines 185-209). -/
def sendRegularMessageEnhanced (st : ClientState) (env : OrchestratorEnv) (message : String)
    (detection : AWSDetectionResult) : ClientState × Except String EnhancedResponse :=
  match env.llm message with
  | .error e => (st, .error e)
  | .ok reply =>
    (st, .ok { llm_response := reply
               mcp_used := false
               aws_detection := detection
               enhanced_context := none
               processing_time := env.elapsed
               fallback_reason := none })

/-- EnhancedOllamaClient.send_message_with_mcp (lines 76-102). -/
def sendMessageWithMcp (st : ClientState) (env : OrchestratorEnv) (message : String) :
    ClientState × Except String EnhancedResponse :=
  let st := { st with stats :=
    { st.stats with total_queries := st.stats.total_queries + 1 } }
  let detection := detectionOf env message
  if shouldUseMcp st detection then sendWithMcpEnhancement st env message detection
  else sendRegularMessageEnhanced st env message detection

/-- The branch condition of mcpTryBlock lines 143-150 read off the code:
the manager reports no connection and the server fails to start. -/
def serverStartFails (env : OrchestratorEnv) : Bool :=
  !env.is_connected && !env.server_starts

/-- The branch condition of mcpTryBlock line 158 read off the code. -/
def lowDocConfidence (env : OrchestratorEnv) (message : String) : Bool :=
  decide ((enhanceQuery message env.doc_response env.enhance_elapsed).confidence_score < 3/10)

/-- The path on which the code records a successful MCP enhancement: the
MCP branch is taken, the components exist, the server is reachable, the
enhancement clears the 0.3 bar, and the LLM call on the enhanced prompt
succeeds. -/
def mcpEnhancementSucceeds (st : ClientState) (env : OrchestratorEnv) (message : String) :
    Bool :=
  shouldUseMcp st (detectionOf env message) && st.has_mcp_manager &&
    !serverStartFails env && !lowDocConfidence env message &&
    exceptOk (env.llm
      (enhanceQuery message env.doc_response env.enhance_elapsed).enhanced_prompt)

/-- The paths on which an exception escapes the enhancement try-block:
the missing (None) manager, or an LLM failure — on the enhanced prompt,
or on the original message inside one of the two in-try fallbacks. -/
def mcpEnhancementRaises (st : ClientState) (env : OrchestratorEnv) (message : String) :
    Bool :=
  shouldUseMcp st (detectionOf env message) &&
    (!st.has_mcp_manager ||
      (st.has_mcp_manager && serverStartFails env && !exceptOk (env.llm message)) ||
      (st.has_mcp_manager && !serverStartFails env && lowDocConfidence env message &&
        !exceptOk (env.llm message)) ||
      (st.has_mcp_manager && !serverStartFails env && !lowDocConfidence env message &&
        !exceptOk (env.llm
          (enhanceQuery message env.doc_response env.enhance_elapsed).enhanced_prompt)))

/-- How many times one invocation bumps the fallback counter: an in-try
fallback whose own LLM call raises reaches the except handler, which
falls back a second time. -/
def fallbackIncrements (st : ClientState) (env : OrchestratorEnv) (message : String) : Nat :=
  if !shouldUseMcp st (detectionOf env message) then 0
  else if !st.has_mcp_manager then 1
  else if serverStartFails env then (if exceptOk (env.llm message) then 1 else 2)
  else if lowDocConfidence env message then (if exceptOk (env.llm message) then 1 else 2)
  else if exceptOk (env.llm
      (enhanceQuery message env.doc_response env.enhance_elapsed).enhanced_prompt) then 0
  else 1

/-- C6 (amended): per invocation, total_queries always rises by one;
aws_queries_detected rises exactly when the invocation is routed to the
MCP enhancement path (MCP enabled, classification relevant, confidence
at or above the threshold) — not on every relevant classification;
mcp_queries_successful on a used enhancement; mcp_queries_failed on an
exception escaping the enhancement try-block; fallback_queries once per
fallback performed (twice when an in-try fallback LLM call raises). -/
theorem session_stats_increments (st : ClientState) (env : OrchestratorEnv)
    (message : String) :
    ((sendMessageWithMcp st env message).1).stats.total_queries =
      st.stats.total_queries + 1 ∧
    ((sendMessageWithMcp st env message).1).stats.aws_queries_detected =
      st.stats.aws_queries_detected +
        (if shouldUseMcp st (detectionOf env message) then 1 else 0) ∧
    ((sendMessageWithMcp st env message).1).stats.mcp_queries_successful =
      st.stats.mcp_queries_successful +
        (if mcpEnhancementSucceeds st env message then 1 else 0) ∧
    ((sendMessageWithMcp st env message).1).stats.mcp_queries_failed =
      st.stats.mcp_queries_failed +
        (if mcpEnhancementRaises st env message then 1 else 0) ∧
    ((sendMessageWithMcp st env message).1).stats.fallback_queries =
      st.stats.fallback_queries + fallbackIncrements st env message := by
  unfold sendMessageWithMcp sendWithMcpEnhancement mcpTryBlock sendRegularMessageEnhanced
    sendFallbackResponse mcpEnhancementSucceeds mcpEnhancementRaises fallbackIncrements
    serverStartFails lowDocConfidence
  by_cases hs : shouldUseMcp st (detectionOf env message) = true
  · have hs2 : shouldUseMcp
        { st with stats := { st.stats with total_queries := st.stats.total_queries + 1 } }
        (detectionOf env message) = true := hs
    rw [if_pos hs2]
    simp only [hs, Bool.true_and]
    by_cases hm : st.has_mcp_manager = true
    · simp only [hm, Bool.not_true, Bool.false_and, Bool.false_or, Bool.true_and,
        Bool.if_false_left, Bool.and_true]
      by_cases hsf : (!env.is_connected && !env.server_starts) = true
      · simp only [hsf, Bool.not_true, Bool.true_and, Bool.and_false, Bool.false_and,
          Bool.or_false, Bool.false_or, Bool.and_true, if_true]
        cases hl : env.llm message with
        | error e => simp [hl, exceptOk]
        | ok reply => simp [hl, exceptOk]
      · have hsf2 : (!env.is_connected && !env.server_starts) = false :=
          Bool.eq_false_iff.mpr hsf
        simp only [hsf2, Bool.not_false, Bool.true_and, Bool.false_and, Bool.and_false,
          Bool.or_false, Bool.false_or, if_false, Bool.if_false_left, Bool.and_true]
        by_cases hlc :
            (enhanceQuery message env.doc_response env.enhance_elapsed).confidence_score
              < 3/10
        · rw [if_pos hlc]
          simp only [decide_eq_true hlc, Bool.true_and, Bool.and_false, Bool.false_and,
            Bool.or_false, Bool.false_or, if_true, Bool.and_true, Bool.not_true]
          cases hl : env.llm message with
          | error e => simp [hl, exceptOk]
          | ok reply => simp [hl, exceptOk]
        · rw [if_neg hlc]
          have hlc2 : decide
              ((enhanceQuery message env.doc_response env.enhance_elapsed).confidence_score
                < 3/10) = false := decide_eq_false hlc
          simp only [hlc2, Bool.not_false, Bool.true_and, Bool.false_and, Bool.and_false,
            Bool.or_false, Bool.false_or, if_false, Bool.and_true]
          cases hl : env.llm
              (enhanceQuery message env.doc_response env.enhance_elapsed).enhanced_prompt with
          | error e =>
            simp only [hl, exceptOk, Bool.not_false, Bool.and_true, if_false]
            cases hl2 : env.llm message with
            | error e2 => simp [hl2, exceptOk]
            | ok reply => simp [hl2, exceptOk]
          | ok reply => simp [hl, exceptOk]
    · have hm2 : st.has_mcp_manager = false := Bool.eq_false_iff.mpr hm
      simp only [hm2, Bool.not_false, Bool.false_and, Bool.and_false, Bool.false_or,
        Bool.or_false, if_true, Bool.true_and, Bool.true_or]
      cases hl : env.llm message with
      | error e => simp [hl, exceptOk]
      | ok reply => simp [hl, exceptOk]
  · have hs0 : shouldUseMcp st (detectionOf env message) = false :=
      Bool.eq_false_iff.mpr hs
    have hs2 : shouldUseMcp
        { st with stats := { st.stats with total_queries := st.stats.total_queries + 1 } }
        (detectionOf env message) = false := hs0
    rw [if_neg (by rw [hs2]; exact Bool.false_ne_true)]
    simp only [hs0, Bool.false_and, Bool.not_false, if_true]
    cases hl : env.llm message with
    | error e => simp [hl, exceptOk]
    | ok reply => simp [hl, exceptOk]

/-- Evaluation of the classifier on the concrete query used by the
orchestrator counterexamples. Matcher justification against the source
term tables: in "deploy an ec2 instance on aws" the service regex
matches exactly "ec2"; the keyword regex matches exactly "deploy",
"instance" and "aws". -/
theorem cexDetection_eval :
    analyzeQuery (fun _ => ["ec2"]) (fun _ => ["deploy", "instance", "aws"])
      "deploy an ec2 instance on aws" =
    ⟨true, 1, ["ec2"], ["deploy", "instance", "aws"]⟩ := by
  have hq : ¬pyStrip "deploy an ec2 instance on aws" = "" := by decide
  have hql : pyStrip (pyLower "deploy an ec2 instance on aws") =
      "deploy an ec2 instance on aws" := by decide
  have hsv : (((["ec2"]) : List String).map pyLower).dedup = ["ec2"] := by decide
  have hkw : (((["deploy", "instance", "aws"]) : List String).map pyLower).dedup =
      ["deploy", "instance", "aws"] := by decide
  have hconf : calcConfidence "deploy an ec2 instance on aws" ["ec2"]
      ["deploy", "instance", "aws"] = 1 := by
    have c1 : pyContains "deploy an ec2 instance on aws" "aws" = true := by decide
    have c3 : cloudTerms.filter (fun t => pyContains "deploy an ec2 instance on aws" t) =
        ["deploy"] := by decide
    have c4 : pySplitCount "deploy an ec2 instance on aws" = 6 := by decide
    norm_num [calcConfidence, keywordWeight, c1, c3, c4]
    rw [if_neg (show ¬(("deploy" : String) = "cloud") by decide),
      if_neg (show ¬(("instance" : String) = "cloud") by decide),
      if_neg (show ¬(("aws" : String) = "cloud") by decide)]
    norm_num
    rw [if_neg (show ¬((["deploy", "instance", "aws"] : List String) = []) by simp)]
    norm_num
  unfold analyzeQuery
  rw [if_neg hq]
  simp only [hql, hsv, hkw, hconf]
  rw [show decide ((4/10 : ℚ) ≤ 1) = true from decide_eq_true (by norm_num)]

/-- The environment of the orchestrator counterexamples: the concrete
matchers above, no connectivity, a failed documentation response, and an
LLM that answers every prompt. -/
def cexOrchestratorEnv : OrchestratorEnv :=
  { serviceMatcher := fun _ => ["ec2"]
    keywordMatcher := fun _ => ["deploy", "instance", "aws"]
    is_connected := false
    server_starts := false
    doc_response := { success := false, documentation := [], sources := [], query_time := 0 }
    enhance_elapsed := 0
    llm := fun _ => .ok "reply"
    elapsed := 0 }

/-- C6, as the claim states it, fails on the code: with MCP disabled the
query "deploy an ec2 instance on aws" classifies as relevant (confidence
1.0), yet the invocation leaves aws_queries_detected untouched, because
the code bumps that counter only on the MCP enhancement path, which the
mcp_enabled flag gates off. -/
theorem session_stats_relevant_counterexample :
    (detectionOf cexOrchestratorEnv "deploy an ec2 instance on aws").is_aws_related = true ∧
    ((sendMessageWithMcp (initClientState false (4/10)) cexOrchestratorEnv
        "deploy an ec2 instance on aws").1).stats.total_queries = 1 ∧
    ((sendMessageWithMcp (initClientState false (4/10)) cexOrchestratorEnv
        "deploy an ec2 instance on aws").1).stats.aws_queries_detected = 0 := by
  have hdet : detectionOf cexOrchestratorEnv "deploy an ec2 instance on aws" =
      ⟨true, 1, ["ec2"], ["deploy", "instance", "aws"]⟩ := cexDetection_eval
  refine ⟨by rw [hdet], ?_, ?_⟩
  · unfold sendMessageWithMcp
    rw [hdet]
    simp [shouldUseMcp, initClientState, sendRegularMessageEnhanced, cexOrchestratorEnv]
  · unfold sendMessageWithMcp
    rw [hdet]
    simp [shouldUseMcp, initClientState, sendRegularMessageEnhanced, cexOrchestratorEnv]

/-- C10: a client built with mcp_enabled=False (so no manager or
enhancer exists) that later has MCP enabled through configure_mcp still
returns an EnhancedResponse on a relevant query rather than raising,
provided the LLM itself answers: the access on the missing manager is
caught by the enhancement try-block handler and converted into a
fallback response with mcp_used = false and a present fallback reason. -/
theorem null_manager_converted_to_fallback (threshold : ℚ) (env : OrchestratorEnv)
    (message reply : String)
    (hs : shouldUseMcp (configureMcp (some true) none (initClientState false threshold))
      (detectionOf env message) = true)
    (hllm : env.llm message = .ok reply) :
    ∃ r : EnhancedResponse,
      (sendMessageWithMcp (configureMcp (some true) none (initClientState false threshold))
          env message).2 = .ok r ∧
      r.mcp_used = false ∧ r.fallback_reason.isSome = true := by
  unfold sendMessageWithMcp
  simp only [configureMcp, initClientState, shouldUseMcp] at hs ⊢
  rw [if_pos hs]
  unfold sendWithMcpEnhancement mcpTryBlock
  simp only [Bool.not_false, if_true]
  unfold sendFallbackResponse
  rw [hllm]
  exact ⟨_, rfl, rfl, rfl⟩

/-- Witness for C10 at the concrete relevant query and answering LLM of
the orchestrator counterexample environment. -/
theorem null_manager_converted_to_fallback_witness :
    (shouldUseMcp (configureMcp (some true) none (initClientState false (4/10)))
      (detectionOf cexOrchestratorEnv "deploy an ec2 instance on aws") = true) ∧
    (cexOrchestratorEnv.llm "deploy an ec2 instance on aws" = .ok "reply") ∧
    ∃ r : EnhancedResponse,
      (sendMessageWithMcp (configureMcp (some true) none (initClientState false (4/10)))
          cexOrchestratorEnv "deploy an ec2 instance on aws").2 = .ok r ∧
      r.mcp_used = false ∧ r.fallback_reason.isSome = true := by
  have hs : shouldUseMcp (configureMcp (some true) none (initClientState false (4/10)))
      (detectionOf cexOrchestratorEnv "deploy an ec2 instance on aws") = true := by
    rw [show detectionOf cexOrchestratorEnv "deploy an ec2 instance on aws" =
        ⟨true, 1, ["ec2"], ["deploy", "instance", "aws"]⟩ from cexDetection_eval]
    simp only [shouldUseMcp, configureMcp, initClientState, Bool.true_and]
    rw [show decide ((1 : ℚ) < 4/10) = false from decide_eq_false (by norm_num)]
    rfl
  exact ⟨hs, rfl,
    null_manager_converted_to_fallback (4/10) cexOrchestratorEnv
      "deploy an ec2 instance on aws" "reply" hs rfl⟩
